import Mathlib

/-!
Verification of the Rocket.Chat MCP client core: a shallow embedding of the
endpoint-fallback resolution loop, the room-scoped local message search, the
advanced/global search pipelines and the analytics aggregation helpers of the
RocketChatClient class, together with proofs of the documented properties.

Remote calls are modelled by environments: a fallback chain receives a map
from endpoint name to the outcome of invoking it, and composite operations
receive the outcomes of the fetches they perform. Fallible operations return
Except String. JavaScript strings are Lean String (toLowerCase restricted to
the ASCII range), epoch-millisecond dates are Int, and JavaScript objects
used as counters are association lists in insertion order.
-/

namespace RocketChat

/-- Model of the JavaScript String.prototype.toLowerCase (ASCII range). -/
def jsToLower (s : String) : String := String.mk (s.toList.map Char.toLower)

/-- Model of the JavaScript String.prototype.includes: hay contains needle
as a contiguous substring. -/
def containsSub (hay needle : String) : Bool :=
  (List.range (hay.toList.length + 1)).any
    (fun i => needle.toList.isPrefixOf (hay.toList.drop i))

/-- The empty needle is a substring of every string, as in JavaScript. -/
theorem containsSub_nil (hay : String) : containsSub hay "" = true := by
  unfold containsSub
  rw [List.any_eq_true]
  exact ⟨0, List.mem_range.mpr (Nat.succ_pos _), by simp [List.isPrefixOf]⟩

/-- Model of Math.round (a / b) for natural a and positive b: JavaScript
rounds halves up, so the result is the floor of (2a + b) / 2b. -/
def jsRoundDiv (a b : Nat) : Nat := (2 * a + b) / (2 * b)

/-- Author reference carried on a message (msg.u). -/
structure UserRef where
  uid : String
  username : String
  uname : Option String
deriving Repr, DecidableEq

/-- A chat message as the client reads it: optional text, epoch-millisecond
timestamp, optional author, file-attachment flag, mentions, flags. -/
structure Message where
  msg : Option String
  ts : Int
  u : Option UserRef
  file : Bool
  mentions : List String
  starred : Bool
  pinned : Bool
deriving Repr, DecidableEq

/-- Body of a successful history response (result.messages may be absent). -/
structure HistoryResponse where
  messages : Option (List Message)
deriving Repr, DecidableEq

/-- A room member as the client reads it. -/
structure Member where
  status : Option String
  roles : Option (List String)
  joinedAt : Option Int
deriving Repr, DecidableEq

/-- Body of a successful members response (result.members may be absent). -/
structure MembersResponse where
  members : Option (List Member)
deriving Repr, DecidableEq

/-! ## The endpoint-fallback loop (Room Resolver)

The source pattern: for (const endpoint of endpoints) try return request
(endpoint) catch continue; then throw a fixed synthesized error. The
environment maps an endpoint name to the outcome of invoking it; the trace
component records every endpoint actually invoked, in order. -/

/-- The catch-and-continue loop over an ordered candidate list, instrumented
with the list of endpoints actually invoked. -/
def tryEndpointsTrace {α : Type} (env : String → Except String α) :
    List String → Option α × List String
  | [] => (none, [])
  | e :: rest =>
    match env e with
    | .ok r => (some r, [e])
    | .error _ =>
      let p := tryEndpointsTrace env rest
      (p.1, e :: p.2)

/-- Candidate endpoints of getMessages, in source order. -/
def getMessagesEndpoints : List String :=
  ["channels.history", "groups.history", "dm.history"]

/-- getMessages: try channels.history, groups.history, dm.history in order;
return result.messages of the first success (defaulting to an empty list),
else the synthesized error. -/
def getMessages (env : String → Except String HistoryResponse) :
    Except String (List Message) :=
  match (tryEndpointsTrace env getMessagesEndpoints).1 with
  | some r => .ok (r.messages.getD [])
  | none => .error "Unable to fetch messages - room not found or no access"

/-- The endpoints getMessages actually invokes. -/
def getMessagesTrace (env : String → Except String HistoryResponse) :
    List String :=
  (tryEndpointsTrace env getMessagesEndpoints).2

/-- Candidate endpoints of inviteToChannel, in source order. -/
def inviteEndpoints : List String := ["channels.invite", "groups.invite"]

/-- inviteToChannel: try channels.invite then groups.invite; return the
first successful response unchanged, else the synthesized error. -/
def inviteToChannel {α : Type} (env : String → Except String α) :
    Except String α :=
  match (tryEndpointsTrace env inviteEndpoints).1 with
  | some r => .ok r
  | none => .error "Unable to invite user - room not found or no access"

/-- The endpoints inviteToChannel actually invokes. -/
def inviteToChannelTrace {α : Type} (env : String → Except String α) :
    List String :=
  (tryEndpointsTrace env inviteEndpoints).2

/-- Candidate endpoints of getChannelMembers, in source order. -/
def getChannelMembersEndpoints : List String :=
  ["channels.members", "groups.members"]

/-- getChannelMembers: try channels.members then groups.members; return
result.members of the first success, else the synthesized error. -/
def getChannelMembers (env : String → Except String MembersResponse) :
    Except String (List Member) :=
  match (tryEndpointsTrace env getChannelMembersEndpoints).1 with
  | some r => .ok (r.members.getD [])
  | none => .error "Unable to fetch members - room not found or no access"

/-- C1: in a room-scoped fallback operation the candidates are tried in
their listed order; when the first candidate fails and the second succeeds,
the result is built from the second response and no later candidate (for
getMessages: dm.history) is invoked. -/
theorem fallback_order_invariant {α : Type} (envI : String → Except String α)
    (envH : String → Except String HistoryResponse)
    (eI eH : String) (rI : α) (rH : HistoryResponse)
    (hI1 : envI "channels.invite" = .error eI)
    (hI2 : envI "groups.invite" = .ok rI)
    (hH1 : envH "channels.history" = .error eH)
    (hH2 : envH "groups.history" = .ok rH) :
    inviteToChannel envI = .ok rI ∧
    inviteToChannelTrace envI = ["channels.invite", "groups.invite"] ∧
    getMessages envH = .ok (rH.messages.getD []) ∧
    getMessagesTrace envH = ["channels.history", "groups.history"] := by
  refine ⟨?_, ?_, ?_, ?_⟩ <;>
    simp [inviteToChannel, inviteToChannelTrace, getMessages, getMessagesTrace,
      tryEndpointsTrace, inviteEndpoints, getMessagesEndpoints, hI1, hI2, hH1, hH2]

/-- Environment for the fallback-order witness: channels.invite fails,
groups.invite succeeds. -/
def envInviteW : String → Except String Nat :=
  fun e => if e = "groups.invite" then .ok 7 else .error "failA"

/-- A sample message used by concrete witnesses. -/
def mW : Message := ⟨some "hi", 0, none, false, [], false, false⟩

/-- Environment for the fallback-order witness: channels.history fails,
groups.history succeeds. -/
def envHistW : String → Except String HistoryResponse :=
  fun e => if e = "groups.history" then .ok ⟨some [mW]⟩ else .error "failB"

/-- Witness for C1 at a concrete environment. -/
theorem fallback_order_invariant_witness :
    inviteToChannel envInviteW = .ok 7 ∧
    inviteToChannelTrace envInviteW = ["channels.invite", "groups.invite"] ∧
    getMessages envHistW = .ok [mW] ∧
    getMessagesTrace envHistW = ["channels.history", "groups.history"] :=
  fallback_order_invariant envInviteW envHistW "failA" "failB" 7 ⟨some [mW]⟩
    rfl rfl rfl rfl

/-- C2 (amended): when every candidate fails, the operation rejects with
exactly one error whose message is the fixed synthesized string naming the
operation, independent of the individual candidate error strings. -/
theorem fallback_exhaustion (envH envH' : String → Except String HistoryResponse)
    (envB : String → Except String MembersResponse)
    (e1 e2 e3 f1 f2 f3 g1 g2 : String)
    (h1 : envH "channels.history" = .error e1)
    (h2 : envH "groups.history" = .error e2)
    (h3 : envH "dm.history" = .error e3)
    (h1' : envH' "channels.history" = .error f1)
    (h2' : envH' "groups.history" = .error f2)
    (h3' : envH' "dm.history" = .error f3)
    (k1 : envB "channels.members" = .error g1)
    (k2 : envB "groups.members" = .error g2) :
    getMessages envH = .error "Unable to fetch messages - room not found or no access" ∧
    getMessages envH = getMessages envH' ∧
    getChannelMembers envB = .error "Unable to fetch members - room not found or no access" := by
  refine ⟨?_, ?_, ?_⟩ <;>
    simp [getMessages, getChannelMembers, tryEndpointsTrace,
      getMessagesEndpoints, getChannelMembersEndpoints,
      h1, h2, h3, h1', h2', h3', k1, k2]

/-- All-failing environment whose candidate error string is a substring of
the synthesized message. -/
def envExhaustW : String → Except String HistoryResponse :=
  fun _ => .error "no access"

/-- Marker environment with distinct error strings, for the witness. -/
def envExhaustW2 : String → Except String HistoryResponse :=
  fun _ => .error "some other reason"

/-- All-failing members environment for the witness. -/
def envMembersW : String → Except String MembersResponse :=
  fun _ => .error "nope"

/-- Witness for the amended C2 at concrete environments. -/
theorem fallback_exhaustion_witness :
    getMessages envExhaustW2 =
      .error "Unable to fetch messages - room not found or no access" ∧
    getMessages envExhaustW2 = getMessages (fun _ => .error "different") ∧
    getChannelMembers envMembersW =
      .error "Unable to fetch members - room not found or no access" :=
  fallback_exhaustion envExhaustW2 (fun _ => .error "different") envMembersW
    "some other reason" "some other reason" "some other reason"
    "different" "different" "different" "nope" "nope"
    rfl rfl rfl rfl rfl rfl rfl rfl

/-- C2 counterexample: with every candidate failing with the error string
"no access", the synthesized message does contain that candidate error
string as a substring, so the containment part of the claim is false. -/
theorem fallback_exhaustion_counterexample :
    getMessages envExhaustW =
      .error "Unable to fetch messages - room not found or no access" ∧
    containsSub "Unable to fetch messages - room not found or no access"
      "no access" = true := by
  exact ⟨rfl, by decide⟩

/-! ## Room-scoped local search -/

/-- The local search predicate of searchMessages:
msg.msg and msg.msg.toLowerCase().includes(query.toLowerCase()); a message
with absent or empty text is falsy and never matches. -/
def msgMatches (query : String) (m : Message) : Bool :=
  match m.msg with
  | none => false
  | some t => if t = "" then false else containsSub (jsToLower t) (jsToLower query)

/-- A message whose text field is present and non-empty. -/
def hasText (m : Message) : Bool :=
  match m.msg with
  | none => false
  | some t => !(t == "")

/-- Room-scoped branch of searchMessages (roomId supplied): fetch
min(count * 5, 200) recent messages through the history operation, filter
locally, truncate to count; only if the history fetch fails fall back to
the chat.search endpoint, and if both fail reject with both reasons. -/
def searchMessages (history : Nat → Except String (List Message))
    (chatSearch : Except String (List Message)) (query : String) (count : Nat) :
    Except String (List Message) :=
  let searchCount := min (count * 5) 200
  match history searchCount with
  | .ok recent => .ok ((recent.filter (msgMatches query)).take count)
  | .error e1 =>
    match chatSearch with
    | .ok r => .ok r
    | .error e2 =>
      .error ("Search failed: " ++ e1 ++ ". Direct search also failed: " ++ e2)

/-- C3: room-scoped search asks history for min(count * 5, 200) messages,
keeps exactly the case-insensitive substring matches in the order history
returned them, and truncates to at most count results. -/
theorem local_search_correct (history : Nat → Except String (List Message))
    (cs : Except String (List Message)) (query : String) (count : Nat)
    (msgs : List Message)
    (h : history (min (count * 5) 200) = .ok msgs) :
    searchMessages history cs query count =
      .ok ((msgs.filter (msgMatches query)).take count) ∧
    ((msgs.filter (msgMatches query)).take count).Sublist msgs ∧
    ((msgs.filter (msgMatches query)).take count).length ≤ count ∧
    ∀ m ∈ (msgs.filter (msgMatches query)).take count, msgMatches query m = true := by
  refine ⟨by simp [searchMessages, h], ?_, ?_, ?_⟩
  · exact List.Sublist.trans (List.take_sublist _ _) (List.filter_sublist _)
  · exact List.length_take_le _ _
  · intro m hm
    exact List.of_mem_filter (List.mem_of_mem_take hm)

/-- The three-message history of the local-search scenario. -/
def mHello : Message := ⟨some "hello world", 0, none, false, [], false, false⟩

/-- Second scenario message, no match. -/
def mBye : Message := ⟨some "goodbye", 1, none, false, [], false, false⟩

/-- Third scenario message, matches case-insensitively. -/
def mHello2 : Message := ⟨some "Hello there", 2, none, false, [], false, false⟩

/-- History returning the fixed scenario collection. -/
def histW : Nat → Except String (List Message) :=
  fun _ => .ok [mHello, mBye, mHello2]

/-- Witness for C3: searching the scenario collection for "hello" returns
exactly the first and third messages in that order. -/
theorem local_search_correct_witness :
    searchMessages histW (.error "x") "hello" 20 =
      .ok (([mHello, mBye, mHello2].filter (msgMatches "hello")).take 20) ∧
    ([mHello, mBye, mHello2].filter (msgMatches "hello")).take 20 =
      [mHello, mHello2] :=
  ⟨(local_search_correct histW (.error "x") "hello" 20 [mHello, mBye, mHello2]
      rfl).1,
   by decide⟩

/-- C10: every message returned by the room-scoped search has present,
non-empty text, and the empty query matches exactly the messages with
non-empty text (truncated to count). -/
theorem search_excludes_textless (history : Nat → Except String (List Message))
    (cs : Except String (List Message)) (query : String) (count : Nat)
    (msgs : List Message)
    (h : history (min (count * 5) 200) = .ok msgs) :
    (∀ out, searchMessages history cs query count = .ok out →
      ∀ m ∈ out, m.msg ≠ none ∧ m.msg ≠ some "") ∧
    searchMessages history cs "" count =
      .ok ((msgs.filter hasText).take count) := by
  constructor
  · intro out hout m hm
    have hout' : out = (msgs.filter (msgMatches query)).take count := by
      simp [searchMessages, h] at hout
      exact hout.symm
    subst hout'
    have hmem : msgMatches query m = true :=
      List.of_mem_filter (List.mem_of_mem_take hm)
    unfold msgMatches at hmem
    constructor
    · intro hnone
      rw [hnone] at hmem
      simp at hmem
    · intro hempty
      rw [hempty] at hmem
      simp at hmem
  · have hfilter : msgs.filter (msgMatches "") = msgs.filter hasText := by
      apply List.filter_congr
      intro m _
      unfold msgMatches hasText
      cases hm : m.msg with
      | none => rfl
      | some t =>
        by_cases ht : t = ""
        · simp [ht]
        · have hlo : jsToLower "" = "" := rfl
          simp only [ht, if_false, beq_iff_eq, Bool.not_false, hlo,
            containsSub_nil]
          simp [ht]
    simp [searchMessages, h, hfilter]

/-- Witness for C10: a history with one textless, one empty-text and one
texted message; the empty query keeps exactly the texted one. -/
theorem search_excludes_textless_witness :
    (∀ out, searchMessages (fun _ => .ok [⟨none, 0, none, true, [], false, false⟩,
        ⟨some "", 1, none, false, [], false, false⟩, mW]) (.error "x") "" 20 = .ok out →
      ∀ m ∈ out, m.msg ≠ none ∧ m.msg ≠ some "") ∧
    searchMessages (fun _ => .ok [⟨none, 0, none, true, [], false, false⟩,
        ⟨some "", 1, none, false, [], false, false⟩, mW]) (.error "x") "" 20 =
      .ok (([⟨none, 0, none, true, [], false, false⟩,
        ⟨some "", 1, none, false, [], false, false⟩, mW].filter hasText).take 20) :=
  search_excludes_textless _ (.error "x") "" 20
    [⟨none, 0, none, true, [], false, false⟩,
     ⟨some "", 1, none, false, [], false, false⟩, mW] rfl

/-! ## Message analytics (analyzeMessages) -/

/-- Per-user accumulator entry of analyzeMessages.byUser: running count plus
the first-seen username and display name. -/
structure UserCount where
  count : Nat
  username : String
  uname : Option String
deriving Repr, DecidableEq

/-- One step of the byUser accumulation: increment an existing entry in
place or append a fresh entry, as a JavaScript object keyed by user id. -/
def bumpUser (uid username : String) (nm : Option String) :
    List (String × UserCount) → List (String × UserCount)
  | [] => [(uid, ⟨1, username, nm⟩)]
  | (k, v) :: rest =>
    if k = uid then (k, ⟨v.count + 1, v.username, v.uname⟩) :: rest
    else (k, v) :: bumpUser uid username nm rest

/-- The byUser pass: count messages per author id, skipping messages whose
author id is absent or empty (falsy in the source). -/
def byUserAcc (msgs : List Message) : List (String × UserCount) :=
  msgs.foldl (fun acc m =>
    match m.u with
    | none => acc
    | some u => if u.uid = "" then acc else bumpUser u.uid u.username u.uname acc) []

/-- One step of a generic counter object: increment the entry of a key or
append it with count 1. -/
def bumpCount {κ : Type} [BEq κ] (k : κ) : List (κ × Nat) → List (κ × Nat)
  | [] => [(k, 1)]
  | (a, n) :: rest => if a == k then (a, n + 1) :: rest else (a, n) :: bumpCount k rest

/-- Hour-of-day of an epoch-millisecond timestamp (UTC model of the
JavaScript Date.getHours). -/
def jsGetHours (ts : Int) : Int := (ts / 3600000) % 24

/-- Calendar-day bucket of an epoch-millisecond timestamp (UTC model of the
JavaScript Date.toDateString). -/
def jsDayIndex (ts : Int) : Int := ts / 86400000

/-- Text length contributed by a message: msg.msg.length when the text is
present (truthy), else nothing. -/
def jsTextLen (m : Message) : Nat :=
  match m.msg with
  | none => 0
  | some t => if t = "" then 0 else t.length

/-- Sum of the text lengths of a message collection. -/
def sumTextLen : List Message → Nat
  | [] => 0
  | m :: rest => jsTextLen m + sumTextLen rest

/-- Coarse type classifier: file when a file reference is present. -/
def isFileMsg (m : Message) : Bool := m.file

/-- Coarse type classifier: system when the author is rocket.cat and no
file is attached. -/
def isSystemMsg (m : Message) : Bool :=
  !m.file && ((m.u.map UserRef.username) == some "rocket.cat")

/-- Coarse type classifier: text otherwise. -/
def isTextMsg (m : Message) : Bool :=
  !m.file && !((m.u.map UserRef.username) == some "rocket.cat")

/-- The reduce step picking the most active author entry: keep prev when
strictly larger, else take current (so the last entry wins ties). -/
def pickActive (p : String × UserCount) :
    List (String × UserCount) → String × UserCount
  | [] => p
  | c :: rest => pickActive (if p.2.count > c.2.count then p else c) rest

/-- The date-window filter applied before aggregation: keep ts at or after
dateFrom, then keep ts at or before dateTo, each stage only when the bound
is given. -/
def dateFilter (msgs : List Message) (dateFrom dateTo : Option Int) :
    List Message :=
  let m1 := match dateFrom with
    | none => msgs
    | some lo => msgs.filter (fun m => decide (lo ≤ m.ts))
  match dateTo with
  | none => m1
  | some hi => m1.filter (fun m => decide (m.ts ≤ hi))

/-- The aggregate record produced by analyzeMessages. -/
structure MessageAnalysis where
  total : Nat
  byUser : List (String × UserCount)
  textCount : Nat
  fileCount : Nat
  systemCount : Nat
  byHour : List (Int × Nat)
  byDay : List (Int × Nat)
  averageLength : Nat
  mostActive : Option UserCount
deriving Repr, DecidableEq

/-- The aggregation pass of analyzeMessages over an already date-filtered
collection. -/
def analyzeCore (msgs : List Message) : MessageAnalysis :=
  let bu := byUserAcc msgs
  { total := msgs.length
    byUser := bu
    textCount := msgs.countP isTextMsg
    fileCount := msgs.countP isFileMsg
    systemCount := msgs.countP isSystemMsg
    byHour := msgs.foldl (fun acc m => bumpCount (jsGetHours m.ts) acc) []
    byDay := msgs.foldl (fun acc m => bumpCount (jsDayIndex m.ts) acc) []
    averageLength :=
      if msgs.length = 0 then 0 else jsRoundDiv (sumTextLen msgs) msgs.length
    mostActive := match bu with
      | [] => none
      | h :: t => some (pickActive h t).2 }

/-- analyzeMessages: filter to the optional date window, then aggregate. -/
def analyzeMessages (msgs : List Message) (dateFrom dateTo : Option Int) :
    MessageAnalysis :=
  analyzeCore (dateFilter msgs dateFrom dateTo)

/-- Average length as the claim for C7 words it: round(sum of text lengths
of messages that have text / count of messages that have text), zero when
that count is zero. -/
def specAverageLength (msgs : List Message) : Nat :=
  let withText := msgs.filter hasText
  if withText.length = 0 then 0
  else jsRoundDiv (sumTextLen withText) withText.length

/-- Two-message collection separating the two average formulas: one text
message of length 4 and one file-only message without text. -/
def mText4 : Message := ⟨some "abcd", 0, none, false, [], false, false⟩

/-- File-only counterexample message. -/
def mFileOnly : Message := ⟨none, 0, none, true, [], false, false⟩

/-- C7 counterexample: the code divides the summed text length by the size
of the whole filtered collection, so a file-only message drags the average
to 2 where the claim formula (divide by messages that have text) gives 4. -/
theorem average_length_counterexample :
    (analyzeMessages [mText4, mFileOnly] none none).averageLength = 2 ∧
    specAverageLength (dateFilter [mText4, mFileOnly] none none) = 4 ∧
    (2 : Nat) ≠ 4 := by
  refine ⟨by decide, by decide, by decide⟩

/-- sumTextLen is the sum of the per-message text lengths. -/
theorem sumTextLen_eq_map_sum (msgs : List Message) :
    sumTextLen msgs = (msgs.map jsTextLen).sum := by
  induction msgs with
  | nil => rfl
  | cons m rest ih => simp [sumTextLen, ih]

/-- C7 (amended): averageLength is round(sum of text lengths of messages
that have text, divided by the size of the whole date-filtered collection),
and an empty collection reports 0. -/
theorem average_length_formula (msgs : List Message) (df dt : Option Int) :
    (analyzeMessages msgs df dt).averageLength =
      (if (dateFilter msgs df dt).length = 0 then 0
       else jsRoundDiv (((dateFilter msgs df dt).map jsTextLen).sum)
         (dateFilter msgs df dt).length) ∧
    (analyzeMessages [] df dt).averageLength = 0 := by
  constructor
  · simp [analyzeMessages, analyzeCore, sumTextLen_eq_map_sum]
  · have hnil : dateFilter [] df dt = [] := by
      cases df <;> cases dt <;> simp [dateFilter]
    simp [analyzeMessages, hnil, analyzeCore]

/-- C8: filtering to a date window that covers every timestamp of the
collection leaves every aggregate of analyzeMessages unchanged. -/
theorem date_window_idempotent (msgs : List Message) (lo hi : Int)
    (h : ∀ m ∈ msgs, lo ≤ m.ts ∧ m.ts ≤ hi) :
    analyzeMessages msgs (some lo) (some hi) = analyzeMessages msgs none none := by
  unfold analyzeMessages
  congr 1
  have h1 : msgs.filter (fun m => decide (lo ≤ m.ts)) = msgs := by
    rw [List.filter_eq_self]
    intro m hm
    exact decide_eq_true (h m hm).1
  have h2 : msgs.filter (fun m => decide (m.ts ≤ hi)) = msgs := by
    rw [List.filter_eq_self]
    intro m hm
    exact decide_eq_true (h m hm).2
  simp [dateFilter, h1, h2]

/-- Fixed two-message collection whose timestamps span [1, 5]. -/
def msgsSpanW : List Message :=
  [⟨some "a", 1, none, false, [], false, false⟩,
   ⟨some "b", 5, none, false, [], false, false⟩]

/-- Witness for C8 with the window equal to the collection span. -/
theorem date_window_idempotent_witness :
    analyzeMessages msgsSpanW (some 1) (some 5) =
      analyzeMessages msgsSpanW none none :=
  date_window_idempotent msgsSpanW 1 5 (by decide)

/-! ## Member analytics (analyzeMembers) -/

/-- Effective status of a member: member.status || offline, so a missing or
empty status string falls back to offline. -/
def effStatus (m : Member) : String :=
  match m.status with
  | none => "offline"
  | some s => if s = "" then "offline" else s

/-- Effective roles of a member: member.roles || [user]; only an absent
list falls back (an empty list is truthy in the source). -/
def effRoles (m : Member) : List String :=
  match m.roles with
  | none => ["user"]
  | some rs => rs

/-- Thirty days in milliseconds, the joinedRecently window. -/
def thirtyDaysMs : Int := 30 * 86400000

/-- A member joined recently when joinedAt is present and strictly after
thirty days before the call time. -/
def joinedRecentlyB (now : Int) (m : Member) : Bool :=
  match m.joinedAt with
  | none => false
  | some t => decide (now - thirtyDaysMs < t)

/-- The byStatus object starts with the four fixed buckets at zero, in
source order. -/
def initStatusBuckets : List (String × Nat) :=
  [("online", 0), ("away", 0), ("busy", 0), ("offline", 0)]

/-- The aggregate record produced by analyzeMembers. -/
structure MemberAnalysis where
  total : Nat
  byStatus : List (String × Nat)
  byRole : List (String × Nat)
  joinedRecently : Nat
deriving Repr, DecidableEq

/-- analyzeMembers: bucket by effective status on top of the four seeded
buckets, bucket by every effective role, and count recent joins relative to
the call time. -/
def analyzeMembers (members : List Member) (now : Int) : MemberAnalysis :=
  { total := members.length
    byStatus := members.foldl (fun acc m => bumpCount (effStatus m) acc)
      initStatusBuckets
    byRole := members.foldl
      (fun acc m => (effRoles m).foldl (fun a r => bumpCount r a) acc) []
    joinedRecently := members.countP (joinedRecentlyB now) }

/-- Count held by a key of a counter object, zero when the key is absent. -/
def lookupD {κ : Type} [BEq κ] : List (κ × Nat) → κ → Nat
  | [], _ => 0
  | (a, n) :: rest, k => if a == k then n else lookupD rest k

/-- Bumping a key adds one to the count of that key and leaves every other
key unchanged. -/
theorem lookupD_bumpCount (l : List (String × Nat)) (k s : String) :
    lookupD (bumpCount k l) s = lookupD l s + (if s = k then 1 else 0) := by
  induction l with
  | nil =>
    by_cases hsk : s = k
    · subst hsk
      simp [bumpCount, lookupD]
    · simp [bumpCount, lookupD, hsk,
        show (k == s) = false from beq_eq_false_iff_ne.mpr (fun he => hsk he.symm)]
  | cons p rest ih =>
    rcases p with ⟨a, n⟩
    by_cases hak : a = k
    · subst hak
      by_cases hsa : a = s
      · subst hsa
        simp [bumpCount, lookupD]
      · simp [bumpCount, lookupD,
          show (a == s) = false from beq_eq_false_iff_ne.mpr hsa,
          show ¬s = a from fun he => hsa he.symm]
    · have hbk : (a == k) = false := beq_eq_false_iff_ne.mpr hak
      by_cases hsa : a = s
      · subst hsa
        simp [bumpCount, lookupD, hbk, hak]
      · have hbs : (a == s) = false := beq_eq_false_iff_ne.mpr hsa
        simp only [bumpCount, hbk, Bool.false_eq_true, if_false, lookupD, hbs]
        exact ih

/-- Folding status bumps over a member list adds the per-status count to
the initial bucket value. -/
theorem lookupD_status_fold (members : List Member)
    (init : List (String × Nat)) (s : String) :
    lookupD (members.foldl (fun acc m => bumpCount (effStatus m) acc) init) s =
      lookupD init s + members.countP (fun m => effStatus m == s) := by
  induction members generalizing init with
  | nil => simp
  | cons m rest ih =>
    rw [List.foldl_cons, ih, lookupD_bumpCount, List.countP_cons]
    by_cases hs : effStatus m = s
    · simp only [hs, beq_self_eq_true, if_pos rfl, if_true]
      omega
    · simp [hs, show (effStatus m == s) = false from beq_eq_false_iff_ne.mpr hs,
        show ¬s = effStatus m from fun he => hs he.symm]

/-- Folding role bumps of one role list adds the occurrence count of the
key. -/
theorem lookupD_roles_fold (roles : List String)
    (init : List (String × Nat)) (r : String) :
    lookupD (roles.foldl (fun a k => bumpCount k a) init) r =
      lookupD init r + roles.count r := by
  induction roles generalizing init with
  | nil => simp
  | cons k rest ih =>
    rw [List.foldl_cons, ih, lookupD_bumpCount, List.count_cons]
    by_cases hr : r = k
    · simp [hr]
      omega
    · simp [hr, show (k == r) = false from
        beq_eq_false_iff_ne.mpr (fun he => hr he.symm)]

/-- Folding the nested role bumps over a member list sums the per-member
occurrence counts of the key. -/
theorem lookupD_member_roles_fold (members : List Member)
    (init : List (String × Nat)) (r : String) :
    lookupD (members.foldl
        (fun acc m => (effRoles m).foldl (fun a k => bumpCount k a) acc) init) r =
      lookupD init r + (members.map (fun m => (effRoles m).count r)).sum := by
  induction members generalizing init with
  | nil => simp
  | cons m rest ih =>
    rw [List.foldl_cons, ih, lookupD_roles_fold]
    simp
    omega

/-- Every seeded status bucket starts at zero. -/
theorem lookupD_initStatusBuckets (s : String) :
    lookupD initStatusBuckets s = 0 := by
  unfold initStatusBuckets
  simp only [lookupD]
  repeat' split
  all_goals rfl

/-- C9 (amended): analyzeMembers counts each member under exactly its
effective status key (missing or empty status counted as offline, an
unrecognized status under its own key), counts one role bucket increment
per occurrence of a role string in the effective role list (defaulting to
the single role user when the list is absent), and counts as
joinedRecently exactly the members whose join date is strictly within the
last thirty days before the call time. -/
theorem member_analysis_buckets (members : List Member) (now : Int) :
    (∀ s : String, lookupD (analyzeMembers members now).byStatus s =
      members.countP (fun m => effStatus m == s)) ∧
    (∀ r : String, lookupD (analyzeMembers members now).byRole r =
      (members.map (fun m => (effRoles m).count r)).sum) ∧
    (analyzeMembers members now).joinedRecently =
      members.countP (joinedRecentlyB now) ∧
    (analyzeMembers members now).total = members.length := by
  refine ⟨?_, ?_, rfl, rfl⟩
  · intro s
    unfold analyzeMembers
    rw [lookupD_status_fold, lookupD_initStatusBuckets]
    omega
  · intro r
    unfold analyzeMembers
    rw [lookupD_member_roles_fold]
    simp [lookupD]

/-- A member whose status string is outside the four known buckets. -/
def mInvisible : Member := ⟨some "invisible", some ["user"], none⟩

/-- C9 counterexample: a member with the unrecognized status invisible is
not counted in the offline bucket; it creates its own bucket instead. -/
theorem member_status_counterexample :
    lookupD (analyzeMembers [mInvisible] 0).byStatus "offline" = 0 ∧
    lookupD (analyzeMembers [mInvisible] 0).byStatus "invisible" = 1 := by
  exact ⟨by decide, by decide⟩

/-! ## Advanced search (advancedSearch) -/

/-- Message-type filter option of advancedSearch. -/
inductive MessageType where
  | all
  | mentions
  | starred
  | pinned
deriving Repr, DecidableEq

/-- Sort key option of advancedSearch. -/
inductive SortBy where
  | timestamp
  | relevance
deriving Repr, DecidableEq

/-- Sort direction option of advancedSearch. -/
inductive SortOrder where
  | asc
  | desc
deriving Repr, DecidableEq

/-- The option record accepted by advancedSearch. -/
structure AdvOptions where
  query : String
  roomId : Option String
  userId : Option String
  dateFrom : Option Int
  dateTo : Option Int
  messageType : Option MessageType
  sortBy : Option SortBy
  sortOrder : Option SortOrder
deriving Repr, DecidableEq

/-- The filter echo of a successful advancedSearch result. -/
structure AdvFilters where
  roomId : Option String
  userId : Option String
  dateFrom : Option Int
  dateTo : Option Int
  messageType : Option MessageType
deriving Repr, DecidableEq

/-- The result object of advancedSearch. -/
structure AdvResult where
  success : Bool
  error : Option String
  messages : List Message
  total : Nat
  query : Option String
  filters : Option AdvFilters
deriving Repr, DecidableEq

/-- Author-id stage: applied only when options.userId is truthy. -/
def stageUser (o : AdvOptions) (ms : List Message) : List Message :=
  match o.userId with
  | none => ms
  | some uid =>
    if uid = "" then ms
    else ms.filter (fun m => (m.u.map UserRef.uid) == some uid)

/-- Lower-bound date stage: applied only when options.dateFrom is given. -/
def stageFrom (o : AdvOptions) (ms : List Message) : List Message :=
  match o.dateFrom with
  | none => ms
  | some lo => ms.filter (fun m => decide (lo ≤ m.ts))

/-- Upper-bound date stage: applied only when options.dateTo is given. -/
def stageTo (o : AdvOptions) (ms : List Message) : List Message :=
  match o.dateTo with
  | none => ms
  | some hi => ms.filter (fun m => decide (m.ts ≤ hi))

/-- Message-type stage: applied only when a type other than all is
requested. -/
def stageType (o : AdvOptions) (ms : List Message) : List Message :=
  match o.messageType with
  | none => ms
  | some MessageType.all => ms
  | some MessageType.mentions => ms.filter (fun m => decide (0 < m.mentions.length))
  | some MessageType.starred => ms.filter (fun m => m.starred)
  | some MessageType.pinned => ms.filter (fun m => m.pinned)

/-- Insertion step of the timestamp sort. -/
def insertLe (le : Message → Message → Bool) (m : Message) :
    List Message → List Message
  | [] => [m]
  | x :: xs => if le x m then x :: insertLe le m xs else m :: x :: xs

/-- Insertion sort modelling the JavaScript Array.prototype.sort with a
numeric comparator. -/
def sortLe (le : Message → Message → Bool) : List Message → List Message
  | [] => []
  | x :: xs => insertLe le x (sortLe le xs)

/-- Sort stage: only sortBy = timestamp sorts, by timestamp in the
requested direction (ascending unless sortOrder = desc); relevance is
accepted but has no effect. -/
def stageSort (o : AdvOptions) (ms : List Message) : List Message :=
  if o.sortBy == some SortBy.timestamp then
    if o.sortOrder == some SortOrder.desc then
      sortLe (fun a b => decide (b.ts ≤ a.ts)) ms
    else sortLe (fun a b => decide (a.ts ≤ b.ts)) ms
  else ms

/-- advancedSearch: obtain the base set from the chat.search endpoint, then
apply the userId, dateFrom, dateTo, messageType and sort stages in
sequence; on endpoint failure report success false with the error. -/
def advancedSearch (chatSearch : Except String (List Message))
    (o : AdvOptions) : AdvResult :=
  match chatSearch with
  | .error e => ⟨false, some e, [], 0, none, none⟩
  | .ok ms0 =>
    let ms := stageSort o (stageType o (stageTo o (stageFrom o (stageUser o ms0))))
    ⟨true, none, ms, ms.length, some o.query,
      some ⟨o.roomId, o.userId, o.dateFrom, o.dateTo, o.messageType⟩⟩

/-- Pointwise predicate of the author-id stage. -/
def predUser (o : AdvOptions) (m : Message) : Bool :=
  match o.userId with
  | none => true
  | some uid => if uid = "" then true else (m.u.map UserRef.uid) == some uid

/-- Pointwise predicate of the lower-bound date stage. -/
def predFrom (o : AdvOptions) (m : Message) : Bool :=
  match o.dateFrom with
  | none => true
  | some lo => decide (lo ≤ m.ts)

/-- Pointwise predicate of the upper-bound date stage. -/
def predTo (o : AdvOptions) (m : Message) : Bool :=
  match o.dateTo with
  | none => true
  | some hi => decide (m.ts ≤ hi)

/-- Pointwise predicate of the message-type stage: mentions means a
non-empty mentions list, starred and pinned mean the respective flags. -/
def predType (o : AdvOptions) (m : Message) : Bool :=
  match o.messageType with
  | none => true
  | some MessageType.all => true
  | some MessageType.mentions => decide (0 < m.mentions.length)
  | some MessageType.starred => m.starred
  | some MessageType.pinned => m.pinned

/-- The conjunction of the four optional predicate stages. -/
def specStagePred (o : AdvOptions) (m : Message) : Bool :=
  predUser o m && predFrom o m && predTo o m && predType o m

/-- Filtering by an always-true predicate keeps the whole list. -/
theorem filter_true_of_pred (p : Message → Bool) (ms : List Message)
    (h : ∀ m, p m = true) : ms.filter p = ms := by
  rw [List.filter_eq_self]
  intro m _
  exact h m

/-- The author-id stage is the filter by its pointwise predicate. -/
theorem stageUser_eq_filter (o : AdvOptions) (ms : List Message) :
    stageUser o ms = ms.filter (predUser o) := by
  cases ho : o.userId with
  | none =>
    simp only [stageUser, ho]
    exact (filter_true_of_pred (predUser o) ms (fun m => by simp [predUser, ho])).symm
  | some uid =>
    by_cases he : uid = ""
    · subst he
      simp only [stageUser, ho, if_pos rfl]
      exact (filter_true_of_pred (predUser o) ms (fun m => by simp [predUser, ho])).symm
    · simp only [stageUser, ho, if_neg he]
      apply List.filter_congr
      intro m _
      simp [predUser, ho, he]

/-- The lower-bound stage is the filter by its pointwise predicate. -/
theorem stageFrom_eq_filter (o : AdvOptions) (ms : List Message) :
    stageFrom o ms = ms.filter (predFrom o) := by
  cases ho : o.dateFrom with
  | none =>
    simp only [stageFrom, ho]
    exact (filter_true_of_pred (predFrom o) ms (fun m => by simp [predFrom, ho])).symm
  | some lo =>
    simp only [stageFrom, ho]
    apply List.filter_congr
    intro m _
    simp [predFrom, ho]

/-- The upper-bound stage is the filter by its pointwise predicate. -/
theorem stageTo_eq_filter (o : AdvOptions) (ms : List Message) :
    stageTo o ms = ms.filter (predTo o) := by
  cases ho : o.dateTo with
  | none =>
    simp only [stageTo, ho]
    exact (filter_true_of_pred (predTo o) ms (fun m => by simp [predTo, ho])).symm
  | some hi =>
    simp only [stageTo, ho]
    apply List.filter_congr
    intro m _
    simp [predTo, ho]

/-- The message-type stage is the filter by its pointwise predicate. -/
theorem stageType_eq_filter (o : AdvOptions) (ms : List Message) :
    stageType o ms = ms.filter (predType o) := by
  cases ho : o.messageType with
  | none =>
    simp only [stageType, ho]
    exact (filter_true_of_pred (predType o) ms (fun m => by simp [predType, ho])).symm
  | some t =>
    cases t with
    | all =>
      simp only [stageType, ho]
      exact (filter_true_of_pred (predType o) ms (fun m => by simp [predType, ho])).symm
    | mentions =>
      simp only [stageType, ho]
      apply List.filter_congr
      intro m _
      simp [predType, ho]
    | starred =>
      simp only [stageType, ho]
      apply List.filter_congr
      intro m _
      simp [predType, ho]
    | pinned =>
      simp only [stageType, ho]
      apply List.filter_congr
      intro m _
      simp [predType, ho]

/-- Four sequential filters collapse to one filter by the conjunction. -/
theorem filter_filter_four {α : Type} (p1 p2 p3 p4 : α → Bool) (l : List α) :
    (((l.filter p1).filter p2).filter p3).filter p4 =
      l.filter (fun a => p1 a && p2 a && p3 a && p4 a) := by
  rw [List.filter_filter, List.filter_filter, List.filter_filter]
  apply List.filter_congr
  intro a _
  rcases h1 : p1 a <;> rcases h2 : p2 a <;> rcases h3 : p3 a <;> rcases h4 : p4 a <;>
    simp [h1, h2, h3, h4]

/-- C4 (amended): advancedSearch takes its base set from the chat.search
endpoint response and then applies the optional author-id, dateFrom,
dateTo and message-type predicate stages in sequence, which together
filter by the conjunction of the four stage predicates. -/
theorem advanced_search_stages (cs : Except String (List Message))
    (ms : List Message) (o : AdvOptions)
    (h : cs = .ok ms) (hsort : o.sortBy = none) :
    (advancedSearch cs o).success = true ∧
    (advancedSearch cs o).messages = ms.filter (specStagePred o) ∧
    (advancedSearch cs o).total = (ms.filter (specStagePred o)).length := by
  subst h
  have hstages : stageSort o (stageType o (stageTo o (stageFrom o (stageUser o ms)))) =
      ms.filter (specStagePred o) := by
    rw [stageUser_eq_filter, stageFrom_eq_filter, stageTo_eq_filter,
      stageType_eq_filter, filter_filter_four]
    simp [stageSort, hsort]
    rfl
  refine ⟨rfl, ?_, ?_⟩ <;> simp [advancedSearch, hstages]

/-- Options of the C4 witness: author, date window and mentions filters
set, no sort. -/
def advOptsStagesW : AdvOptions :=
  ⟨"q", none, some "u1", some 2, some 10, some MessageType.mentions, none, none⟩

/-- Messages of the C4 witness: only the first passes all four stages. -/
def advMsgsW : List Message :=
  [⟨some "a", 5, some ⟨"u1", "alice", none⟩, false, ["bob"], false, false⟩,
   ⟨some "b", 5, some ⟨"u2", "carol", none⟩, false, ["bob"], false, false⟩,
   ⟨some "c", 11, some ⟨"u1", "alice", none⟩, false, ["bob"], false, false⟩,
   ⟨some "d", 5, some ⟨"u1", "alice", none⟩, false, [], false, false⟩]

/-- Witness for the amended C4 at a concrete input. -/
theorem advanced_search_stages_witness :
    (advancedSearch (.ok advMsgsW) advOptsStagesW).success = true ∧
    (advancedSearch (.ok advMsgsW) advOptsStagesW).messages =
      advMsgsW.filter (specStagePred advOptsStagesW) ∧
    (advancedSearch (.ok advMsgsW) advOptsStagesW).total =
      (advMsgsW.filter (specStagePred advOptsStagesW)).length :=
  advanced_search_stages (.ok advMsgsW) advMsgsW advOptsStagesW rfl rfl

/-- Options of the C4 counterexample: a plain query, nothing else. -/
def advOptsW : AdvOptions :=
  ⟨"hello", none, none, none, none, none, none, none⟩

/-- C4 counterexample: the chat.search endpoint returns a message whose
text does not contain the query; advancedSearch keeps it, so its base set
is not the local-filter substrate (which keeps only substring matches). -/
theorem advanced_search_counterexample :
    (advancedSearch (.ok [mBye]) advOptsW).messages = [mBye] ∧
    msgMatches "hello" mBye = false := by
  exact ⟨rfl, by decide⟩

/-! ## Global search (globalSearch) -/

/-- A room as read from the room list: optional name, topic and
description. -/
structure Room where
  name : Option String
  topic : Option String
  description : Option String
deriving Repr, DecidableEq

/-- Case-insensitive substring match against an optional field; an absent
field never matches (optional chaining yields a falsy value). -/
def optFieldMatches (field : Option String) (query : String) : Bool :=
  match field with
  | none => false
  | some s => containsSub (jsToLower s) (jsToLower query)

/-- The room sub-search predicate: name, topic or description contains the
query, case-insensitively. -/
def roomMatches (query : String) (r : Room) : Bool :=
  optFieldMatches r.name query || optFieldMatches r.topic query ||
    optFieldMatches r.description query

/-- Which sub-searches globalSearch runs. -/
inductive SearchType where
  | messages
  | rooms
  | users
  | all
deriving Repr, DecidableEq

/-- Model of the JavaScript (options.limit || d) default: absent or zero
falls back to the default. -/
def jsOrNat (o : Option Nat) (d : Nat) : Nat :=
  match o with
  | none => d
  | some n => if n = 0 then d else n

/-- Outcomes of the three independent sub-searches of globalSearch. -/
structure GlobalEnv (υ : Type) where
  msgSearch : Except String (List Message)
  roomsList : Except String (List Room)
  userSearch : Except String (List υ)

/-- The result object of globalSearch: per-category result lists and
totals. -/
structure GlobalSearchResult (υ : Type) where
  success : Bool
  error : Option String
  messages : List Message
  rooms : List Room
  users : List υ
  totMessages : Nat
  totRooms : Nat
  totUsers : Nat

/-- globalSearch: run the messages, rooms and users sub-searches for the
requested type, each wrapped independently; a failed sub-search leaves its
empty result list and zero total in place and never aborts the others. -/
def globalSearch {υ : Type} (env : GlobalEnv υ) (query : String)
    (st : Option SearchType) (limit : Option Nat) : GlobalSearchResult υ :=
  let base : GlobalSearchResult υ := ⟨true, none, [], [], [], 0, 0, 0⟩
  let r1 :=
    if st == some SearchType.messages || st == some SearchType.all then
      match env.msgSearch with
      | .ok ms => { base with messages := ms, totMessages := ms.length }
      | .error _ => base
    else base
  let r2 :=
    if st == some SearchType.rooms || st == some SearchType.all then
      match env.roomsList with
      | .ok rs =>
        let fr := (rs.filter (roomMatches query)).take (jsOrNat limit 20)
        { r1 with rooms := fr, totRooms := fr.length }
      | .error _ => r1
    else r1
  if st == some SearchType.users || st == some SearchType.all then
    match env.userSearch with
    | .ok us => { r2 with users := us, totUsers := us.length }
    | .error _ => r2
  else r2

/-- C6: when the user sub-search fails but the message and room sub-searches
succeed, globalSearch still reports success, an empty users list with a
zero total, and message and room results identical to the ones it would
produce had the user sub-search succeeded. -/
theorem global_search_partial_failure {υ : Type} (env : GlobalEnv υ)
    (q : String) (limit : Option Nat) (ms : List Message) (rs : List Room)
    (e : String) (us : List υ)
    (h1 : env.msgSearch = .ok ms) (h2 : env.roomsList = .ok rs)
    (h3 : env.userSearch = .error e) :
    (globalSearch env q (some SearchType.all) limit).success = true ∧
    (globalSearch env q (some SearchType.all) limit).users = [] ∧
    (globalSearch env q (some SearchType.all) limit).totUsers = 0 ∧
    (globalSearch env q (some SearchType.all) limit).messages = ms ∧
    (globalSearch env q (some SearchType.all) limit).totMessages = ms.length ∧
    (globalSearch env q (some SearchType.all) limit).rooms =
      (rs.filter (roomMatches q)).take (jsOrNat limit 20) ∧
    (globalSearch { env with userSearch := .ok us } q (some SearchType.all)
        limit).messages =
      (globalSearch env q (some SearchType.all) limit).messages ∧
    (globalSearch { env with userSearch := .ok us } q (some SearchType.all)
        limit).rooms =
      (globalSearch env q (some SearchType.all) limit).rooms := by
  refine ⟨?_, ?_, ?_, ?_, ?_, ?_, ?_, ?_⟩ <;>
    simp [globalSearch, h1, h2, h3]

/-- Environment of the C6 witness: messages and rooms succeed, the user
sub-search fails with a privilege error. -/
def globalEnvW : GlobalEnv Nat :=
  ⟨.ok [mW], .ok [⟨some "general", none, none⟩, ⟨some "random", none, none⟩],
   .error "unauthorized"⟩

/-- Witness for C6 at a concrete environment and the query general. -/
theorem global_search_partial_failure_witness :
    (globalSearch globalEnvW "general" (some SearchType.all) none).success = true ∧
    (globalSearch globalEnvW "general" (some SearchType.all) none).users = [] ∧
    (globalSearch globalEnvW "general" (some SearchType.all) none).totUsers = 0 ∧
    (globalSearch globalEnvW "general" (some SearchType.all) none).messages = [mW] ∧
    (globalSearch globalEnvW "general" (some SearchType.all) none).totMessages =
      [mW].length ∧
    (globalSearch globalEnvW "general" (some SearchType.all) none).rooms =
      ([⟨some "general", none, none⟩, ⟨some "random", none, none⟩].filter
        (roomMatches "general")).take (jsOrNat none 20) ∧
    (globalSearch { globalEnvW with userSearch := .ok [3] } "general"
        (some SearchType.all) none).messages =
      (globalSearch globalEnvW "general" (some SearchType.all) none).messages ∧
    (globalSearch { globalEnvW with userSearch := .ok [3] } "general"
        (some SearchType.all) none).rooms =
      (globalSearch globalEnvW "general" (some SearchType.all) none).rooms :=
  global_search_partial_failure globalEnvW "general" none [mW]
    [⟨some "general", none, none⟩, ⟨some "random", none, none⟩]
    "unauthorized" [3] rfl rfl rfl

/-! ## File analytics and room analytics (analyzeFiles, getRoomAnalytics) -/

/-- An uploaded file as the client reads it: optional MIME type, optional
uploader id, size in bytes. -/
structure RCFile where
  ftype : Option String
  fuserId : Option String
  size : Nat
deriving Repr, DecidableEq

/-- Coarse MIME family of a type string, first matching rule wins. -/
def getFileCategory (mimeType : String) : String :=
  if mimeType.startsWith "image/" then "images"
  else if mimeType.startsWith "video/" then "videos"
  else if mimeType.startsWith "audio/" then "audio"
  else if containsSub mimeType "pdf" then "pdf"
  else if containsSub mimeType "word" || containsSub mimeType "document" then
    "documents"
  else if containsSub mimeType "spreadsheet" || containsSub mimeType "excel" then
    "spreadsheets"
  else if containsSub mimeType "text/" then "text"
  else if containsSub mimeType "zip" || containsSub mimeType "archive" then
    "archives"
  else "other"

/-- Effective MIME type of a file: file.type || unknown. -/
def effFileType (f : RCFile) : String :=
  match f.ftype with
  | none => "unknown"
  | some t => if t = "" then "unknown" else t

/-- Largest-file scan: a file participates only when its size is truthy,
and only a strictly larger size replaces the current largest. -/
def largestAcc (best : Option RCFile) : List RCFile → Option RCFile
  | [] => best
  | f :: rest =>
    if f.size ≠ 0 then
      match best with
      | none => largestAcc (some f) rest
      | some b =>
        if f.size > b.size then largestAcc (some f) rest
        else largestAcc best rest
    else largestAcc best rest

/-- Sum of the truthy file sizes. -/
def sumFileSizes : List RCFile → Nat
  | [] => 0
  | f :: rest => f.size + sumFileSizes rest

/-- The aggregate record produced by analyzeFiles. -/
structure FileAnalysis where
  total : Nat
  byType : List (String × Nat)
  byUser : List (String × Nat)
  totalSize : Nat
  averageSize : Nat
  largestFile : Option RCFile
deriving Repr, DecidableEq

/-- analyzeFiles: bucket by coarse MIME family, count per truthy uploader
id, accumulate sizes, report the rounded average size and track the
largest file. -/
def analyzeFiles (files : List RCFile) : FileAnalysis :=
  { total := files.length
    byType := files.foldl
      (fun acc f => bumpCount (getFileCategory (effFileType f)) acc) []
    byUser := files.foldl
      (fun acc f =>
        match f.fuserId with
        | none => acc
        | some uid => if uid = "" then acc else bumpCount uid acc) []
    totalSize := sumFileSizes files
    averageSize :=
      if files.length = 0 then 0
      else jsRoundDiv (sumFileSizes files) files.length
    largestFile := largestAcc none files }

/-- Outcomes of the four fetches getRoomAnalytics performs. -/
structure AnalyticsEnv (γ : Type) where
  counters : Except String γ
  history : Except String (List Message)
  files : Except String (List RCFile)
  members : Except String (List Member)

/-- The option record accepted by getRoomAnalytics; includeMessages is
included unless explicitly false, includeFiles and includeMembers only
when true. -/
structure AnalyticsOptions where
  dateFrom : Option Int
  dateTo : Option Int
  includeMessages : Option Bool
  includeFiles : Bool
  includeMembers : Bool
deriving Repr, DecidableEq

/-- The result object of getRoomAnalytics: either a failure with the error
of the fetch that threw, or a success carrying the sections that were
requested and produced. -/
structure RoomAnalyticsResult (γ : Type) where
  success : Bool
  error : Option String
  counters : Option γ
  messages : Option MessageAnalysis
  files : Option FileAnalysis
  members : Option MemberAnalysis

/-- getRoomAnalytics: counters, message history and file listing run inside
one try/catch, so a failure of any of them aborts the composite with
success false; only the member section has its own handler, whose failure
merely omits the members section. -/
def getRoomAnalytics {γ : Type} (env : AnalyticsEnv γ) (o : AnalyticsOptions)
    (now : Int) : RoomAnalyticsResult γ :=
  match env.counters with
  | .error e => ⟨false, some e, none, none, none, none⟩
  | .ok c =>
    let mres : Except String (Option MessageAnalysis) :=
      if o.includeMessages == some false then .ok none
      else
        match env.history with
        | .error e => .error e
        | .ok msgs => .ok (some (analyzeMessages msgs o.dateFrom o.dateTo))
    match mres with
    | .error e => ⟨false, some e, none, none, none, none⟩
    | .ok mA =>
      let fres : Except String (Option FileAnalysis) :=
        if o.includeFiles then
          match env.files with
          | .error e => .error e
          | .ok fs => .ok (some (analyzeFiles fs))
        else .ok none
      match fres with
      | .error e => ⟨false, some e, none, none, none, none⟩
      | .ok fA =>
        let memA : Option MemberAnalysis :=
          if o.includeMembers then
            match env.members with
            | .error _ => none
            | .ok mems => some (analyzeMembers mems now)
          else none
        ⟨true, none, some c, mA, fA, memA⟩

/-- C5 (amended): only the member section of getRoomAnalytics is isolated:
a member-listing failure merely omits the members section while the
composite stays successful with messages and files populated, whereas a
file-listing failure (files requested) propagates and the composite
reports success false carrying that error. -/
theorem room_analytics_sections {γ : Type} (env env2 : AnalyticsEnv γ)
    (o : AnalyticsOptions) (now : Int) (c : γ) (msgs : List Message)
    (fs : List RCFile) (fE memE : String)
    (h1 : env.counters = .ok c) (h2 : env.history = .ok msgs)
    (h3 : env.files = .error fE)
    (hMsgs : o.includeMessages ≠ some false)
    (hFiles : o.includeFiles = true) (hMem : o.includeMembers = true)
    (g1 : env2.counters = .ok c) (g2 : env2.history = .ok msgs)
    (g3 : env2.files = .ok fs) (g4 : env2.members = .error memE) :
    getRoomAnalytics env o now = ⟨false, some fE, none, none, none, none⟩ ∧
    (getRoomAnalytics env2 o now).success = true ∧
    (getRoomAnalytics env2 o now).error = none ∧
    (getRoomAnalytics env2 o now).members = none ∧
    (getRoomAnalytics env2 o now).messages =
      some (analyzeMessages msgs o.dateFrom o.dateTo) ∧
    (getRoomAnalytics env2 o now).files = some (analyzeFiles fs) := by
  have hm : (o.includeMessages == some false) = false :=
    beq_eq_false_iff_ne.mpr hMsgs
  refine ⟨?_, ?_, ?_, ?_, ?_, ?_⟩ <;>
    simp [getRoomAnalytics, h1, h2, h3, g1, g2, g3, g4, hm, hFiles, hMem]

/-- Environment of the C5 counterexample and witness: counters, history and
members succeed, the file listing throws. -/
def analyticsEnvW : AnalyticsEnv Nat :=
  ⟨.ok 1, .ok [mW], .error "files down", .ok [mInvisible]⟩

/-- Companion environment in which the member listing throws instead. -/
def analyticsEnvW2 : AnalyticsEnv Nat :=
  ⟨.ok 1, .ok [mW], .ok [], .error "members down"⟩

/-- Options requesting every optional section. -/
def analyticsOptsW : AnalyticsOptions := ⟨none, none, none, true, true⟩

/-- Witness for the amended C5 at concrete environments. -/
theorem room_analytics_sections_witness :
    getRoomAnalytics analyticsEnvW analyticsOptsW 0 =
      ⟨false, some "files down", none, none, none, none⟩ ∧
    (getRoomAnalytics analyticsEnvW2 analyticsOptsW 0).success = true ∧
    (getRoomAnalytics analyticsEnvW2 analyticsOptsW 0).error = none ∧
    (getRoomAnalytics analyticsEnvW2 analyticsOptsW 0).members = none ∧
    (getRoomAnalytics analyticsEnvW2 analyticsOptsW 0).messages =
      some (analyzeMessages [mW] none none) ∧
    (getRoomAnalytics analyticsEnvW2 analyticsOptsW 0).files =
      some (analyzeFiles []) :=
  room_analytics_sections analyticsEnvW analyticsEnvW2 analyticsOptsW 0 1
    [mW] [] "files down" "members down" rfl rfl rfl (by decide) rfl rfl
    rfl rfl rfl rfl

/-- C5 counterexample: with files and members requested, history and
members fine but the file listing throwing, getRoomAnalytics reports
success false and carries the file error, with no messages section, where
the claim requires success true with messages and members populated. -/
theorem room_analytics_counterexample :
    (getRoomAnalytics analyticsEnvW analyticsOptsW 0).success = false ∧
    (getRoomAnalytics analyticsEnvW analyticsOptsW 0).messages = none ∧
    (getRoomAnalytics analyticsEnvW analyticsOptsW 0).members = none ∧
    (getRoomAnalytics analyticsEnvW analyticsOptsW 0).error =
      some "files down" := by
  exact ⟨rfl, rfl, rfl, rfl⟩

end RocketChat
